import Mathlib

/-!
Verification development for `sites.py`, a scheduled website health-check
probe.  The per-site HTTP/redirect/content verification, the SSL-certificate
expiry thresholds, the orchestration loop of `check_sites`, the notification
decision of `__main__`, and the SMS message batch construction are embedded
shallowly below.  External collaborators (the `requests` HTTP library, the
`re` regex engine, the TLS socket layer) are modelled as an environment of
function fields; the repository's branching logic is translated branch by
branch from the source.
-/

namespace Sitecheck

/-- One monitored endpoint, from the `servers` dictionaries in
`check_sites` (src/sites.py lines 58-70): `url`, expected status `code`,
expected `redirect` target (meaningful for 301/302) and expected page
`contents` pattern (meaningful for 200). -/
structure SiteSpec where
  url : String
  code : Nat
  redirect : String := ""
  contents : String := ""
  deriving Repr, DecidableEq

/-- The observable part of a `requests.head` response: the status code and
the optional `Location` header (`r.headers` may lack the key, in which case
the Python subscript raises `KeyError`). -/
structure HeadResponse where
  status_code : Nat
  location : Option String
  deriving Repr, DecidableEq

/-- The observable part of a `requests.get` response: status code and the
decoded body (`r2.content.decode` of src line 97). -/
structure GetResponse where
  status_code : Nat
  body : String
  deriving Repr, DecidableEq

/-- The external world a run interacts with.
`head url` is the outcome of `requests.head(url)`: `.error e` models a
raised `requests.exceptions.RequestException` with text `e`.
`get url` is the follow-up `requests.get(url)` (only consulted on the 200
branch).  `findall pat body` tells whether `re.findall(pat, body)` is
non-empty.  `sslRemaining host` is the outcome of
`ssl_valid_time_remaining(host)` in whole seconds: `.error e` models a
raised socket/TLS/parse exception with text `e`. -/
structure Env where
  head : String → Except String HeadResponse
  get : String → GetResponse
  findall : String → String → Bool
  sslRemaining : String → Except String Int

/-- An exception that escapes `check_sites` unhandled (the function only
catches `requests.exceptions.RequestException` around `requests.head`). -/
inductive Fatal where
  /-- The `raise Exception(...)` of src lines 95-96 (HEAD 200, GET not 200). -/
  | getMismatch (msg : String)
  /-- `KeyError` from `r.headers['Location']` when the header is absent. -/
  | keyError
  /-- An exception raised inside `ssl_valid_time_remaining` (src lines
  26-47), uncaught by the SSL loop of src lines 107-114. -/
  | sslExn (msg : String)
  deriving Repr, DecidableEq

/-- The body of the `for s in servers` loop of `check_sites`
(src lines 74-100), for one spec.  Returns the errors this spec appends
together with a flag that is `true` exactly when the Python `break` of
line 82 fires (a `RequestException` from `requests.head`), or a `Fatal`
when an exception escapes. -/
def probeSpec (env : Env) (s : SiteSpec) : Except Fatal (List String × Bool) :=
  match env.head s.url with
  | .error e => .ok (["Fail: " ++ s.url ++ " exception " ++ e], true)
  | .ok r =>
    if r.status_code ≠ s.code then
      .ok (["Fail: " ++ s.url ++ " expected response code " ++ toString s.code
            ++ " received " ++ toString r.status_code], false)
    else if r.status_code == 301 || r.status_code == 302 then
      match r.location with
      | none => .error .keyError
      | some loc =>
        if loc ≠ s.redirect then
          .ok (["Fail: " ++ s.url ++ " expected redirect " ++ s.redirect
                ++ " received " ++ loc], false)
        else .ok ([], false)
    else if r.status_code == 200 then
      let r2 := env.get s.url
      if r2.status_code ≠ 200 then
        .error (.getMismatch ("unexpected http response code "
          ++ toString r.status_code ++ " from get " ++ s.url))
      else if env.findall s.contents r2.body then .ok ([], false)
      else .ok (["Fail: " ++ s.url ++ " expected contents " ++ s.contents], false)
    else .ok ([], false)

/-- The `for s in servers` loop of `check_sites` (src lines 74-100) with
its accumulated `errors` list.  A `true` break flag stops the loop (Python
`break`), keeping the errors accumulated so far; a `Fatal` propagates. -/
def checkServers (env : Env) : List SiteSpec → List String → Except Fatal (List String)
  | [], acc => .ok acc
  | s :: rest, acc =>
    match probeSpec env s with
    | .error f => .error f
    | .ok (es, brk) =>
      if brk then .ok (acc ++ es) else checkServers env rest (acc ++ es)

/-- The threshold classification applied to one TLS host's remaining
validity (src lines 111-114): `remaining` is in seconds, `timedelta(days=0)`
is 0 and `timedelta(3)` is 259200 seconds; `remaining.days` is the
floor-divided day count (`Int.fdiv remaining 86400`). -/
def sslHostErrs (host : String) (remaining : Int) : List String :=
  if remaining < 0 then
    ["Fail: SSL cert for " ++ host ++ " already expired!"]
  else if remaining < 259200 then
    ["Fail: SSL cert for " ++ host ++ " expiring in "
     ++ toString (Int.fdiv remaining 86400) ++ " days"]
  else []

/-- The `for s in ssl_hosts` loop of `check_sites` (src lines 107-114): no
try/except surrounds `ssl_valid_time_remaining`, so an exception from it
propagates as a `Fatal`. -/
def checkSslHosts (env : Env) : List String → List String → Except Fatal (List String)
  | [], acc => .ok acc
  | h :: rest, acc =>
    match env.sslRemaining h with
    | .error e => .error (.sslExn e)
    | .ok rem => checkSslHosts env rest (acc ++ sslHostErrs h rem)

/-- `check_sites` (src lines 50-121), parametric in the configured site
specs and TLS hostnames: the server loop runs first (its `break` only exits
that loop), then the SSL loop runs on the accumulated error list, and the
final `errors` list is returned. -/
def check_sites (env : Env) (specs : List SiteSpec) (hosts : List String) :
    Except Fatal (List String) :=
  match checkServers env specs [] with
  | .error f => .error f
  | .ok errs => checkSslHosts env hosts errs

/-- The configured `servers` list of src lines 58-70. -/
def servers : List SiteSpec :=
  [ { url := "http://www.readthedocs.org/", code := 302, redirect := "http://readthedocs.org/" },
    { url := "http://readthedocs.org/", code := 302, redirect := "https://readthedocs.org/" },
    { url := "https://readthedocs.org/", code := 200, contents := "Technical documentation lives here" },
    { url := "http://www.python.org/", code := 301, redirect := "https://www.python.org/" },
    { url := "http://python.org/", code := 301, redirect := "https://python.org/" },
    { url := "https://www.python.org/", code := 200, contents := "official home of the Python Programming Language" },
    { url := "http://thunderbird.net/", code := 301, redirect := "https://thunderbird.net/" },
    { url := "http://www.thunderbird.net/", code := 301, redirect := "https://www.thunderbird.net/" },
    { url := "https://www.thunderbird.net/en-US/", code := 200, contents := "Software made to make email easier" } ]

/-- The configured `ssl_hosts` list of src lines 102-106. -/
def ssl_hosts : List String :=
  ["readthedocs.org", "www.python.org", "www.thunderbird.net"]

/-- `rc = len(errors)` of src line 157, the process exit code and the
`results` field persisted to the state store. -/
def run_rc (env : Env) (specs : List SiteSpec) (hosts : List String) :
    Except Fatal Nat :=
  (check_sites env specs hosts).map List.length

/-- The record persisted to the state store (src lines 179-184). -/
structure RunRecord where
  lastRun : Nat
  version : Nat := 1
  results : Nat
  errors : List String
  deriving Repr, DecidableEq

/-- The notification gate of src line 188:
`not last or errors or (not errors and last and last['results'] != 0)`,
with `last` the prior record fetched from the store (`none` when absent)
and `errors` the current run's error list. -/
def shouldNotify (last : Option RunRecord) (errors : List String) : Bool :=
  last.isNone || !errors.isEmpty
    || (errors.isEmpty && last.any (fun l => l.results != 0))

/-- The message batch built in src lines 190-196: a single pass message
when `rc == 0`, otherwise a header naming the error count followed by one
message per error, in order. -/
def buildMessages (rc : Nat) (errors : List String) : List String :=
  if rc == 0 then ["Sitecheck PASS"]
  else ("Sitecheck " ++ toString rc ++ " Errors:") :: errors

/-- `send_sms_messages` (src lines 124-136): one `client.messages.create`
call per element of `messages`, in order; the result is the ordered list of
message bodies handed to the transport. -/
def send_sms_messages (messages : List String) : List String := messages

/-- The errors one spec contributes to the returned list, ignoring break
and fatal outcomes (used to phrase ordering of the site portion). -/
def specContribution (env : Env) (s : SiteSpec) : List String :=
  match probeSpec env s with
  | .ok (es, _) => es
  | .error _ => []

/-- The errors one TLS host contributes to the returned list when its
inspection succeeds. -/
def sslContribution (env : Env) (h : String) : List String :=
  match env.sslRemaining h with
  | .ok rem => sslHostErrs h rem
  | .error _ => []

/-- A world in which the HEAD of `u1` raises a `RequestException` and every
other HEAD answers 500. -/
def envBreak : Env :=
  { head := fun u => if u = "u1" then .error "boom"
                     else .ok { status_code := 500, location := none },
    get := fun _ => { status_code := 200, body := "" },
    findall := fun _ _ => true,
    sslRemaining := fun _ => .ok 10000000 }

/-- A world in which every HEAD answers 301 with `Location:` set. -/
def envRedir : Env :=
  { head := fun _ => .ok { status_code := 301, location := some "https://x/" },
    get := fun _ => { status_code := 200, body := "" },
    findall := fun _ _ => true,
    sslRemaining := fun _ => .ok 10000000 }

/-- A world in which every HEAD and GET answer 200 and only the pattern
`hello` matches the body. -/
def envBody : Env :=
  { head := fun _ => .ok { status_code := 200, location := none },
    get := fun _ => { status_code := 200, body := "say hello world" },
    findall := fun pat _ => pat == "hello",
    sslRemaining := fun _ => .ok 10000000 }

/-- A world in which every HEAD answers 200 but every GET answers 500. -/
def envGet500 : Env :=
  { head := fun _ => .ok { status_code := 200, location := none },
    get := fun _ => { status_code := 500, body := "" },
    findall := fun _ _ => true,
    sslRemaining := fun _ => .ok 10000000 }

/-- A world in which every HEAD answers 301 without a `Location` header. -/
def envNoLoc : Env :=
  { head := fun _ => .ok { status_code := 301, location := none },
    get := fun _ => { status_code := 200, body := "" },
    findall := fun _ _ => true,
    sslRemaining := fun _ => .ok 10000000 }

/-- A world in which inspecting the certificate of `h1` raises and every
other host has ample validity left. -/
def envSslFail : Env :=
  { head := fun _ => .ok { status_code := 200, location := none },
    get := fun _ => { status_code := 200, body := "" },
    findall := fun _ _ => true,
    sslRemaining := fun h => if h = "h1" then .error "boom" else .ok 10000000 }

/-- A fully healthy world: every HEAD and GET answer 200, every pattern
matches, every certificate has ample validity left. -/
def envHealthy : Env :=
  { head := fun _ => .ok { status_code := 200, location := none },
    get := fun _ => { status_code := 200, body := "hello" },
    findall := fun _ _ => true,
    sslRemaining := fun _ => .ok 10000000 }

/-- A single error message of 170 characters, longer than one SMS. -/
def longErr : String :=
  "aaaaaaaaaaaaaaaaaaaaaaaaaaaaaaaaaaaaaaaaaaaaaaaaaaaaaaaaaaaaaaaaaaaaaaaaaaaaaaaaaaaaaaaaaaaaaaaaaaaaaaaaaaaaaaaaaaaaaaaaaaaaaaaaaaaaaaaaaaaaaaaaaaaaaaaaaaaaaaaaaaaaaa"

/-- Running the server loop with a given starting accumulator prepends the
accumulator to the errors the loop produces from an empty one. -/
theorem checkServers_append (env : Env) (specs : List SiteSpec) (acc : List String) :
    checkServers env specs acc = (checkServers env specs []).map (acc ++ ·) := by
  induction specs generalizing acc with
  | nil => simp [checkServers, Except.map]
  | cons s rest ih =>
    simp only [checkServers]
    cases hp : probeSpec env s with
    | error f => simp [Except.map]
    | ok p =>
      obtain ⟨es, brk⟩ := p
      cases brk with
      | true => simp [Except.map]
      | false =>
        simp only [Bool.false_eq_true, if_false]
        rw [ih (acc ++ es), ih ([] ++ es)]
        cases checkServers env rest [] <;> simp [Except.map, List.append_assoc]

/-- A successful server loop returns the in-order concatenation of the
contributions of a prefix of the spec list. -/
theorem checkServers_take (env : Env) (specs : List SiteSpec) (sErrs : List String)
    (h : checkServers env specs [] = .ok sErrs) :
    ∃ k, sErrs = ((specs.take k).map (specContribution env)).flatten := by
  induction specs generalizing sErrs with
  | nil =>
    refine ⟨0, ?_⟩
    simp only [checkServers] at h
    cases h
    simp
  | cons s rest ih =>
    simp only [checkServers] at h
    cases hp : probeSpec env s with
    | error f => rw [hp] at h; exact absurd h (by simp)
    | ok p =>
      obtain ⟨es, brk⟩ := p
      rw [hp] at h
      cases brk with
      | true =>
        simp at h
        refine ⟨1, ?_⟩
        simp [specContribution, hp, ← h]
      | false =>
        simp only [Bool.false_eq_true, if_false, List.nil_append] at h
        rw [checkServers_append] at h
        cases ht : checkServers env rest [] with
        | error f => rw [ht] at h; exact absurd h (by simp [Except.map])
        | ok t =>
          rw [ht] at h
          simp only [Except.map, Except.ok.injEq] at h
          obtain ⟨k, hk⟩ := ih t ht
          refine ⟨k + 1, ?_⟩
          simp [specContribution, hp, ← h, hk]

/-- Running the SSL loop with a given starting accumulator prepends the
accumulator to the errors the loop produces from an empty one. -/
theorem checkSslHosts_append (env : Env) (hosts : List String) (acc : List String) :
    checkSslHosts env hosts acc = (checkSslHosts env hosts []).map (acc ++ ·) := by
  induction hosts generalizing acc with
  | nil => simp [checkSslHosts, Except.map]
  | cons h rest ih =>
    simp only [checkSslHosts]
    cases hr : env.sslRemaining h with
    | error e => simp [Except.map]
    | ok rem =>
      simp only []
      rw [ih (acc ++ sslHostErrs h rem), ih ([] ++ sslHostErrs h rem)]
      cases checkSslHosts env rest [] <;> simp [Except.map, List.append_assoc]

/-- A successful SSL loop returns the in-order concatenation of every
host's contribution. -/
theorem checkSslHosts_ok (env : Env) (hosts : List String) (t : List String)
    (h : checkSslHosts env hosts [] = .ok t) :
    t = (hosts.map (sslContribution env)).flatten := by
  induction hosts generalizing t with
  | nil =>
    simp only [checkSslHosts] at h
    cases h
    simp
  | cons hst rest ih =>
    simp only [checkSslHosts] at h
    cases hr : env.sslRemaining hst with
    | error e => simp_all
    | ok rem =>
      rw [hr] at h
      replace h : checkSslHosts env rest ([] ++ sslHostErrs hst rem) = .ok t := h
      rw [checkSslHosts_append] at h
      cases ht : checkSslHosts env rest [] with
      | error f => rw [ht] at h; exact absurd h (by simp [Except.map])
      | ok t2 =>
        rw [ht] at h
        simp only [Except.map, Except.ok.injEq, List.nil_append] at h
        rw [← h, ih t2 ht]
        simp [sslContribution, hr]

/-- Claim C1: the code contradicts the claimed per-spec fail-fast. In a
world where the HEAD of the first spec raises a `RequestException` and the
HEAD of the second spec answers 500, `check_sites` returns only the first
spec's exception error: the `break` of src line 82 exits the whole server
loop, so the second spec is never probed even though probing it would have
produced a code-mismatch error (second conjunct). -/
theorem break_skips_later_specs :
    check_sites envBreak
      [{ url := "u1", code := 200 }, { url := "u2", code := 200 }] []
      = .ok ["Fail: u1 exception boom"] ∧
    probeSpec envBreak { url := "u2", code := 200 }
      = .ok (["Fail: u2 expected response code 200 received 500"], false) := by
  exact ⟨rfl, rfl⟩

/-- Claim C2: the notification gate of src line 188 returns true iff the
prior record is absent, the current error list is non-empty, or the prior
error count is non-zero while the current error list is empty; it returns
false exactly when a prior record exists and both error counts are zero. -/
theorem shouldNotify_iff (last : Option RunRecord) (errors : List String) :
    (shouldNotify last errors = true ↔
      (last = none ∨ 0 < errors.length ∨
        (∃ l, last = some l ∧ l.results ≠ 0 ∧ errors.length = 0))) ∧
    (shouldNotify last errors = false ↔
      (∃ l, last = some l ∧ l.results = 0 ∧ errors.length = 0)) := by
  cases last with
  | none => simp [shouldNotify]
  | some l =>
    cases errors with
    | nil => by_cases hr : l.results = 0 <;> simp [shouldNotify, hr]
    | cons e es => simp [shouldNotify]

/-- Claim C3: the certificate threshold policy of src lines 111-114:
remaining validity strictly below zero is classified already-expired; zero
up to (excluding) three days (259200 seconds) is classified expiring-soon
with the floor-divided integer day count; three days or more yields no
error. -/
theorem ssl_threshold_classification (host : String) (remaining : Int) :
    (remaining < 0 → sslHostErrs host remaining
        = ["Fail: SSL cert for " ++ host ++ " already expired!"]) ∧
    (0 ≤ remaining → remaining < 259200 → sslHostErrs host remaining
        = ["Fail: SSL cert for " ++ host ++ " expiring in "
           ++ toString (Int.fdiv remaining 86400) ++ " days"]) ∧
    (259200 ≤ remaining → sslHostErrs host remaining = []) := by
  refine ⟨fun h => ?_, fun h0 h3 => ?_, fun h => ?_⟩
  · rw [sslHostErrs, if_pos h]
  · rw [sslHostErrs, if_neg (by omega), if_pos h3]
  · rw [sslHostErrs, if_neg (by omega), if_neg (by omega)]

/-- Concrete instances of the three certificate threshold cases: one
second before expiry is expired, exactly zero is expiring-soon in 0 days,
and exactly three days is healthy. -/
theorem ssl_threshold_classification_witness :
    sslHostErrs "h" (-1) = ["Fail: SSL cert for h already expired!"] ∧
    sslHostErrs "h" 0 = ["Fail: SSL cert for h expiring in 0 days"] ∧
    sslHostErrs "h" 259200 = [] :=
  ⟨(ssl_threshold_classification "h" (-1)).1 (by decide),
   ((ssl_threshold_classification "h" 0).2.1 (by decide) (by decide)).trans (by decide),
   (ssl_threshold_classification "h" 259200).2.2 (by decide)⟩

/-- Claim C4: on the 301/302 path of src lines 88-91, when the HEAD status
matches the expected code and a `Location` header is present, a header
value differing from the expected redirect emits exactly the one error
naming both the expected and the observed target, and an equal header
value emits no error for that spec. -/
theorem redirect_check_spec (env : Env) (s : SiteSpec) (r : HeadResponse) (loc : String)
    (hcode : s.code = 301 ∨ s.code = 302)
    (hhead : env.head s.url = .ok r)
    (hstatus : r.status_code = s.code)
    (hloc : r.location = some loc) :
    (loc ≠ s.redirect → probeSpec env s
        = .ok (["Fail: " ++ s.url ++ " expected redirect " ++ s.redirect
                ++ " received " ++ loc], false)) ∧
    (loc = s.redirect → probeSpec env s = .ok ([], false)) := by
  have h301 : (r.status_code == 301 || r.status_code == 302) = true := by
    rcases hcode with h | h <;> simp [hstatus, h]
  constructor
  · intro hne
    simp only [probeSpec, hhead]
    rw [if_neg (by simp [hstatus]), if_pos h301, hloc]
    simp only []
    rw [if_pos hne]
  · intro heq
    simp only [probeSpec, hhead]
    rw [if_neg (by simp [hstatus]), if_pos h301, hloc]
    simp only []
    rw [if_neg (by simp [heq])]

/-- Concrete instances of both redirect outcomes: a mismatched `Location`
yields the one two-sided error, a matching one yields no error. -/
theorem redirect_check_spec_witness :
    probeSpec envRedir { url := "u", code := 301, redirect := "https://y/" }
      = .ok (["Fail: u expected redirect https://y/ received https://x/"], false) ∧
    probeSpec envRedir { url := "u", code := 301, redirect := "https://x/" }
      = .ok ([], false) := by
  constructor
  · exact ((redirect_check_spec envRedir _ { status_code := 301, location := some "https://x/" }
      "https://x/" (Or.inl rfl) rfl rfl rfl).1 (by decide)).trans (by rfl)
  · exact (redirect_check_spec envRedir _ { status_code := 301, location := some "https://x/" }
      "https://x/" (Or.inl rfl) rfl rfl rfl).2 rfl

/-- Claim C5: on the 200 path of src lines 92-100, when the HEAD status
matches and the follow-up GET answers 200, an empty pattern search over
the body emits exactly the one error naming the missing content, and a
successful search emits no error for that spec. -/
theorem content_check_spec (env : Env) (s : SiteSpec) (r : HeadResponse)
    (hcode : s.code = 200)
    (hhead : env.head s.url = .ok r)
    (hstatus : r.status_code = 200)
    (hget : (env.get s.url).status_code = 200) :
    (env.findall s.contents (env.get s.url).body = false →
      probeSpec env s
        = .ok (["Fail: " ++ s.url ++ " expected contents " ++ s.contents], false)) ∧
    (env.findall s.contents (env.get s.url).body = true →
      probeSpec env s = .ok ([], false)) := by
  constructor <;> intro hf <;>
    simp [probeSpec, hhead, hstatus, hcode, hget, hf]

/-- Concrete instances of both content outcomes: a pattern that the regex
search does not find in the body yields the one error, a found pattern
yields no error. -/
theorem content_check_spec_witness :
    probeSpec envBody { url := "u", code := 200, contents := "absent" }
      = .ok (["Fail: u expected contents absent"], false) ∧
    probeSpec envBody { url := "u", code := 200, contents := "hello" }
      = .ok ([], false) := by
  constructor
  · exact ((content_check_spec envBody _ { status_code := 200, location := none }
      rfl rfl rfl rfl).1 (by rfl)).trans (by rfl)
  · exact (content_check_spec envBody _ { status_code := 200, location := none }
      rfl rfl rfl rfl).2 (by rfl)

/-- Claim C6: when the HEAD answers the expected 200 but the follow-up GET
does not answer 200, the `raise` of src lines 95-96 escapes `check_sites`
unhandled: the probe is fatal instead of appending an error, the server
loop aborts dropping any errors accumulated so far, and the whole run
returns no error list. -/
theorem get_invariant_fatal (env : Env) (s : SiteSpec) (r : HeadResponse)
    (hcode : s.code = 200)
    (hhead : env.head s.url = .ok r)
    (hstatus : r.status_code = 200)
    (hget : (env.get s.url).status_code ≠ 200) :
    probeSpec env s = .error (.getMismatch
        ("unexpected http response code 200 from get " ++ s.url)) ∧
    (∀ acc rest, checkServers env (s :: rest) acc = .error (.getMismatch
        ("unexpected http response code 200 from get " ++ s.url))) ∧
    (∀ rest hosts, check_sites env (s :: rest) hosts = .error (.getMismatch
        ("unexpected http response code 200 from get " ++ s.url))) := by
  have hp : probeSpec env s = .error (.getMismatch
      ("unexpected http response code 200 from get " ++ s.url)) := by
    simp [probeSpec, hhead, hstatus, hcode, hget]
    congr 1
  refine ⟨hp, fun acc rest => by simp [checkServers, hp],
    fun rest hosts => by simp [check_sites, checkServers, hp]⟩

/-- Concrete instance of the fatal GET inconsistency: HEAD 200 with GET
500 makes the probe, the server loop (with a non-empty accumulator) and
the whole run fatal. -/
theorem get_invariant_fatal_witness :
    probeSpec envGet500 { url := "u", code := 200 }
      = .error (.getMismatch "unexpected http response code 200 from get u") ∧
    checkServers envGet500 [{ url := "u", code := 200 }] ["prev"]
      = .error (.getMismatch "unexpected http response code 200 from get u") ∧
    check_sites envGet500 [{ url := "u", code := 200 }] ["h"]
      = .error (.getMismatch "unexpected http response code 200 from get u") := by
  have h := get_invariant_fatal envGet500 { url := "u", code := 200 }
    { status_code := 200, location := none } rfl rfl rfl (by decide)
  exact ⟨h.1.trans (by rfl), (h.2.1 ["prev"] []).trans (by rfl),
    (h.2.2 [] ["h"]).trans (by rfl)⟩

/-- Claim C10: on the 301/302 path the `Location` header of src line 89 is
read unconditionally; when it is absent the probe raises `KeyError`, which
nothing in `check_sites` catches: no error is appended, the accumulated
errors are dropped and the run aborts. -/
theorem missing_location_keyerror (env : Env) (s : SiteSpec) (r : HeadResponse)
    (hcode : s.code = 301 ∨ s.code = 302)
    (hhead : env.head s.url = .ok r)
    (hstatus : r.status_code = s.code)
    (hloc : r.location = none) :
    probeSpec env s = .error .keyError ∧
    (∀ acc rest, checkServers env (s :: rest) acc = .error .keyError) ∧
    (∀ rest hosts, check_sites env (s :: rest) hosts = .error .keyError) := by
  have h301 : (r.status_code == 301 || r.status_code == 302) = true := by
    rcases hcode with h | h <;> simp [hstatus, h]
  have hp : probeSpec env s = .error .keyError := by
    simp only [probeSpec, hhead]
    rw [if_neg (by simp [hstatus]), if_pos h301, hloc]
  refine ⟨hp, fun acc rest => by simp [checkServers, hp],
    fun rest hosts => by simp [check_sites, checkServers, hp]⟩

/-- Concrete instance of the missing-`Location` KeyError: a 301 answer
without the header makes the probe, the server loop (with a non-empty
accumulator) and the whole run fatal. -/
theorem missing_location_keyerror_witness :
    probeSpec envNoLoc { url := "u", code := 301 } = .error .keyError ∧
    checkServers envNoLoc [{ url := "u", code := 301 }] ["prev"] = .error .keyError ∧
    check_sites envNoLoc [{ url := "u", code := 301 }] ["h"] = .error .keyError := by
  have h := missing_location_keyerror envNoLoc { url := "u", code := 301 }
    { status_code := 301, location := none } (Or.inl rfl) rfl rfl rfl
  exact ⟨h.1, h.2.1 ["prev"] [], h.2.2 [] ["h"]⟩

/-- Claim C7 fails on the code: with the certificate inspection of `h1`
raising, the run aborts with the propagated exception; it does not return
any error list, so no CheckError for `h1` is produced and `h2` is never
inspected. -/
theorem ssl_recovery_counterexample :
    check_sites envSslFail [] ["h1", "h2"] = .error (.sslExn "boom") ∧
    ¬ ∃ errs, check_sites envSslFail [] ["h1", "h2"] = .ok errs := by
  refine ⟨rfl, ?_⟩
  rintro ⟨errs, h⟩
  rw [show check_sites envSslFail [] ["h1", "h2"] = .error (.sslExn "boom") from rfl] at h
  exact Except.noConfusion h

/-- Claim C7 amended: the SSL loop of src lines 107-114 has no exception
handling, so a failure of `ssl_valid_time_remaining` for one host
propagates unhandled: no CheckError is appended for that host, the errors
accumulated so far are dropped from the return value, the remaining TLS
hosts are not inspected, and the whole run aborts. -/
theorem ssl_failure_propagates (env : Env) (host e : String)
    (hfail : env.sslRemaining host = .error e) :
    (∀ rest acc, checkSslHosts env (host :: rest) acc = .error (.sslExn e)) ∧
    (∀ specs rest errs, checkServers env specs [] = .ok errs →
      check_sites env specs (host :: rest) = .error (.sslExn e)) := by
  have h1 : ∀ rest acc, checkSslHosts env (host :: rest) acc = .error (.sslExn e) := by
    intro rest acc
    simp [checkSslHosts, hfail]
  refine ⟨h1, fun specs rest errs hok => ?_⟩
  unfold check_sites
  rw [hok]
  exact h1 rest errs

/-- Concrete instance of the propagated TLS failure: the inspection of
`h1` raising makes the SSL loop (with a non-empty accumulator) and the
whole run fatal. -/
theorem ssl_failure_propagates_witness :
    checkSslHosts envSslFail ["h1", "h2"] ["prev"] = .error (.sslExn "boom") ∧
    check_sites envSslFail [] ["h1", "h3"] = .error (.sslExn "boom") :=
  ⟨(ssl_failure_propagates envSslFail "h1" "boom" rfl).1 ["h2"] ["prev"],
   (ssl_failure_propagates envSslFail "h1" "boom" rfl).2 [] ["h3"] [] rfl⟩

/-- Claim C8: a run that returns an error list returns the site-spec
errors first — the in-order concatenation of the contributions of a prefix
of the spec list — followed by the TLS errors, the in-order concatenation
of every host's contribution, and the reported error count (`rc` of src
line 157, the exit code) is the length of that list. -/
theorem run_errors_ordered (env : Env) (specs : List SiteSpec) (hosts : List String)
    (errs : List String) (h : check_sites env specs hosts = .ok errs) :
    ∃ sErrs k,
      checkServers env specs [] = .ok sErrs ∧
      sErrs = ((specs.take k).map (specContribution env)).flatten ∧
      errs = sErrs ++ (hosts.map (sslContribution env)).flatten ∧
      run_rc env specs hosts = .ok errs.length := by
  have hrc : run_rc env specs hosts = .ok errs.length := by
    simp [run_rc, h, Except.map]
  unfold check_sites at h
  cases hs : checkServers env specs [] with
  | error f => rw [hs] at h; exact absurd h (by simp)
  | ok sErrs =>
    rw [hs] at h
    replace h : checkSslHosts env hosts sErrs = .ok errs := h
    rw [checkSslHosts_append] at h
    cases ht : checkSslHosts env hosts [] with
    | error f => rw [ht] at h; exact absurd h (by simp [Except.map])
    | ok t =>
      rw [ht] at h
      simp only [Except.map, Except.ok.injEq] at h
      obtain ⟨k, hk⟩ := checkServers_take env specs sErrs hs
      exact ⟨sErrs, k, rfl, hk, by rw [← h, checkSslHosts_ok env hosts t ht], hrc⟩

set_option maxRecDepth 8000 in
/-- Concrete instance of the run invariant on a healthy one-spec, one-host
configuration. -/
theorem run_errors_ordered_witness :
    ∃ sErrs k,
      checkServers envHealthy [{ url := "u", code := 200 }] [] = .ok sErrs ∧
      sErrs = (([{ url := "u", code := 200 }].take k).map (specContribution envHealthy)).flatten ∧
      ([] : List String) = sErrs ++ (["h"].map (sslContribution envHealthy)).flatten ∧
      run_rc envHealthy [{ url := "u", code := 200 }] ["h"] = .ok ([] : List String).length :=
  run_errors_ordered envHealthy [{ url := "u", code := 200 }] ["h"] [] rfl

set_option maxRecDepth 8000 in
/-- Claim C9 fails on the code: a single error message of 170 characters
makes the concatenated error text exceed 160 characters, yet the built
batch contains that whole message as one send call of length 170 — the
code sends one message per error and never bounds an individual message to
the SMS ceiling. -/
theorem sms_ceiling_counterexample :
    160 < (String.join [longErr]).length ∧
    ∃ m ∈ send_sms_messages (buildMessages [longErr].length [longErr]), 160 < m.length := by
  constructor
  · decide
  · refine ⟨longErr, ?_, by decide⟩
    simp [send_sms_messages, buildMessages]

/-- Claim C9 amended: when the concatenated error text exceeds 160
characters the batch does yield multiple send calls — a count header
followed by one call per error, collectively containing all error text in
original order — but an individual call is not length-bounded: nothing
splits an error message that itself exceeds the ceiling. -/
theorem sms_batch_structure (errors : List String)
    (hlong : 160 < (String.join errors).length) :
    2 ≤ (send_sms_messages (buildMessages errors.length errors)).length ∧
    send_sms_messages (buildMessages errors.length errors)
      = ("Sitecheck " ++ toString errors.length ++ " Errors:") :: errors := by
  have hne : errors ≠ [] := by
    rintro rfl
    exact absurd hlong (by decide)
  have hlen : (errors.length == 0) = false := by
    simp [List.length_eq_zero, hne]
  constructor
  · rw [send_sms_messages, buildMessages, if_neg (by simp [hlen])]
    have := List.length_pos.mpr hne
    simp only [List.length_cons]
    omega
  · rw [send_sms_messages, buildMessages, if_neg (by simp [hlen])]

set_option maxRecDepth 8000 in
/-- Concrete instance of the amended batch structure at a single long
error message. -/
theorem sms_batch_structure_witness :
    2 ≤ (send_sms_messages (buildMessages [longErr].length [longErr])).length ∧
    send_sms_messages (buildMessages [longErr].length [longErr])
      = ("Sitecheck " ++ toString [longErr].length ++ " Errors:") :: [longErr] :=
  sms_batch_structure [longErr] (by decide)

end Sitecheck
